import Mathlib

/-!
Verification of the reth txpool RPC read views and the Optimism
transaction-response compatibility layer.

Embedded sources:
* `crates/optimism/rpc/src/eth/transaction.rs` — `OptimismTxMeta`,
  `build_op_tx_meta`, `OpTxBuilder::fill`.
* `crates/rpc/rpc/src/txpool.rs` — `txpool_status`, `txpool_inspect`,
  `TxPoolApi::content`, `txpool_content_from`.

Machine integers are modelled as `Nat`; the one place overflow matters
(`saturating_to::<u128>`) clamps explicitly against `2 ^ 128 - 1`.
External collaborators (revm's `L1BlockInfo` derivation functions, the
base `Eth::fill` formatter) are parameters of the embedding, exactly as
they are type parameters / external calls in the source.  BTreeMaps are
modelled as partial functions from keys to values; `insert` overwrites.
-/

namespace Reth

/-- An Ethereum address (opaque token, 160-bit in the source). -/
abbrev Address := Nat

/-- Chain specification: opaque input, only threaded through to the
derivation functions. -/
abbrev ChainSpec := Nat

/-- A signed transaction, restricted to the projections the embedded
code reads: `is_deposit()`, `is_system_transaction()`, `source_hash()`,
`mint()`, `envelope_encoded()`. -/
structure TransactionSigned where
  deposit : Bool
  systemTransaction : Bool
  sourceHash : Option Nat
  mintValue : Option Nat
  envelope : List Nat
  deriving DecidableEq, Repr

/-- revm's `L1BlockInfo` as consumed by `build_op_tx_meta`: an opaque
tag plus the two fallible derivation functions `l1_tx_data_fee` and
`l1_data_gas` (external collaborators; their results are U256 values,
modelled as `Nat`). -/
structure L1BlockInfo where
  tag : Nat
  l1_tx_data_fee : ChainSpec → Nat → List Nat → Bool → Except Unit Nat
  l1_data_gas : ChainSpec → Nat → List Nat → Except Unit Nat

/-- The two error variants of `OpEthApiError` used by `build_op_tx_meta`. -/
inductive OpEthApiError where
  | L1BlockFeeError
  | L1BlockGasError
  deriving DecidableEq, Repr

/-- `OptimismTxMeta` (transaction.rs lines 60-68). -/
structure OptimismTxMeta where
  l1_block_info : Option L1BlockInfo
  l1_fee : Option Nat
  l1_data_gas : Option Nat

/-- `OptimismTxMeta::new` (transaction.rs lines 72-78). -/
def OptimismTxMeta.new (l1_block_info : Option L1BlockInfo)
    (l1_fee : Option Nat) (l1_data_gas : Option Nat) : OptimismTxMeta :=
  { l1_block_info := l1_block_info, l1_fee := l1_fee, l1_data_gas := l1_data_gas }

/-- `OptimismTxMeta::default()`: all three fields `None`. -/
def OptimismTxMeta.default : OptimismTxMeta :=
  { l1_block_info := none, l1_fee := none, l1_data_gas := none }

/-- Rust `U256::saturating_to::<u128>`: clamp to the largest u128. -/
def saturatingToU128 (x : Nat) : Nat :=
  min x (2 ^ 128 - 1)

/-- `build_op_tx_meta` (transaction.rs lines 91-117).  `chain_spec`
stands for `self.chain_spec()`. -/
def build_op_tx_meta (chain_spec : ChainSpec) (tx : TransactionSigned)
    (l1_block_info : Option L1BlockInfo) (block_timestamp : Nat) :
    Except OpEthApiError OptimismTxMeta :=
  match l1_block_info with
  | none => Except.ok OptimismTxMeta.default
  | some l1_block_info =>
    match
      (if !tx.deposit then
        let envelope_buf := tx.envelope
        match l1_block_info.l1_tx_data_fee chain_spec block_timestamp envelope_buf tx.deposit with
        | Except.error _ => Except.error OpEthApiError.L1BlockFeeError
        | Except.ok inner_l1_fee =>
          match l1_block_info.l1_data_gas chain_spec block_timestamp envelope_buf with
          | Except.error _ => Except.error OpEthApiError.L1BlockGasError
          | Except.ok inner_l1_data_gas =>
            Except.ok
              (some (saturatingToU128 inner_l1_fee), some (saturatingToU128 inner_l1_data_gas))
      else
        Except.ok ((none : Option Nat), (none : Option Nat))) with
    | Except.error e => Except.error e
    | Except.ok (l1_fee, l1_data_gas) =>
      Except.ok (OptimismTxMeta.new (some l1_block_info) l1_fee l1_data_gas)

/-- A signed transaction paired with its recovered signer
(`TransactionSignedEcRecovered`). -/
structure TransactionSignedEcRecovered where
  signed_transaction : TransactionSigned
  signer : Address
  deriving DecidableEq, Repr

/-- `TransactionSignedEcRecovered::into_signed`. -/
def TransactionSignedEcRecovered.into_signed (tx : TransactionSignedEcRecovered) :
    TransactionSigned :=
  tx.signed_transaction

/-- Positional metadata (`TransactionInfo`). -/
structure TransactionInfo where
  block_hash : Option Nat
  block_number : Option Nat
  index : Option Nat
  deriving DecidableEq, Repr

/-- The rollup extension fields (`OptimismTransactionFields`). -/
structure OptimismTransactionFields where
  source_hash : Option Nat
  mint : Option Nat
  is_system_tx : Option Bool
  deriving DecidableEq, Repr

/-- The Optimism network transaction response: the standard response
fields (opaque here, produced by the base `Eth::fill`) together with
the `other` extension slot. -/
structure TransactionResponse where
  hash : Nat
  signer : Address
  recipient : Option Address
  value : Nat
  gas : Nat
  nonce : Nat
  block_hash : Option Nat
  block_number : Option Nat
  transaction_index : Option Nat
  other : OptimismTransactionFields
  deriving DecidableEq, Repr

/-- Rust `bool::then_some`. -/
def thenSome {α : Type} (c : Bool) (x : α) : Option α :=
  if c then some x else none

/-- `OpTxBuilder::fill` (transaction.rs lines 131-144), parametrised by
the base variant `Eth::fill` it composes. -/
def OpTxBuilder.fill
    (ethFill : TransactionSignedEcRecovered → TransactionInfo → TransactionResponse)
    (tx : TransactionSignedEcRecovered) (tx_info : TransactionInfo) : TransactionResponse :=
  let signed_tx := tx.into_signed
  let resp := ethFill tx tx_info
  { resp with
    other :=
      { source_hash := signed_tx.sourceHash
        mint := signed_tx.mintValue
        is_system_tx := thenSome signed_tx.deposit signed_tx.systemTransaction } }

/-- The txpool `PoolTransaction` read surface used by the aggregator:
sender, nonce, recipient, value, gas limit, max fee per gas.  The
recovered form shares these value projections. -/
structure PoolTransaction where
  sender : Address
  nonce : Nat
  recipient : Option Address
  value : Nat
  gas_limit : Nat
  max_fee_per_gas : Nat
  deriving DecidableEq, Repr

/-- `AllPoolTransactions`: the pool snapshot. -/
structure AllPoolTransactions where
  pending : List PoolTransaction
  queued : List PoolTransaction
  deriving DecidableEq, Repr

/-- `TxpoolStatus`. -/
structure TxpoolStatus where
  pending : Nat
  queued : Nat
  deriving DecidableEq, Repr

/-- `txpool_status` (txpool.rs lines 80-84). -/
def txpool_status (s : AllPoolTransactions) : TxpoolStatus :=
  { pending := s.pending.length, queued := s.queued.length }

/-- `TxpoolInspectSummary`. -/
structure TxpoolInspectSummary where
  recipient : Option Address
  value : Nat
  gas : Nat
  gas_price : Nat
  deriving DecidableEq, Repr

/-- A BTreeMap from addresses to BTreeMaps from decimal-nonce strings
to values, modelled as nested partial functions. -/
def SenderMap (τ : Type) : Type :=
  Address → Option (String → Option τ)

/-- The empty sender map. -/
def SenderMap.empty {τ : Type} : SenderMap τ :=
  fun _ => none

/-- `content.entry(tx.sender()).or_default().insert(tx.nonce().to_string(), v)`:
the shared insertion step of `txpool_inspect` and `content`. -/
def SenderMap.insertTx {τ : Type} (m : SenderMap τ) (sender : Address) (nonce : Nat)
    (v : τ) : SenderMap τ :=
  let entry : String → Option τ := (m sender).getD (fun _ => none)
  let entry' : String → Option τ := fun k => if k = toString nonce then some v else entry k
  fun a => if a = sender then some entry' else m a

/-- Two-level lookup in a sender map. -/
def SenderMap.lookup {τ : Type} (m : SenderMap τ) (a : Address) (k : String) : Option τ :=
  (m a).bind (fun e => e k)

/-- The summary built for one transaction by `txpool_inspect`
(txpool.rs lines 102-110). -/
def inspectSummary (tx : PoolTransaction) : TxpoolInspectSummary :=
  { recipient := tx.recipient
    value := tx.value
    gas := tx.gas_limit
    gas_price := tx.max_fee_per_gas }

/-- The `insert` helper of `txpool_inspect` (txpool.rs lines 96-111). -/
def inspectInsert (tx : PoolTransaction) (m : SenderMap TxpoolInspectSummary) :
    SenderMap TxpoolInspectSummary :=
  m.insertTx tx.sender tx.nonce (inspectSummary tx)

/-- `TxpoolInspect`. -/
structure TxpoolInspect where
  pending : SenderMap TxpoolInspectSummary
  queued : SenderMap TxpoolInspectSummary

/-- `txpool_inspect` (txpool.rs lines 92-125): fold the insert helper
over each partition of one snapshot. -/
def txpool_inspect (s : AllPoolTransactions) : TxpoolInspect :=
  { pending := s.pending.foldl (fun acc tx => inspectInsert tx acc) SenderMap.empty
    queued := s.queued.foldl (fun acc tx => inspectInsert tx acc) SenderMap.empty }

/-- `TxpoolContent`, generic over the formatted transaction type. -/
structure TxpoolContent (τ : Type) where
  pending : SenderMap τ
  queued : SenderMap τ

/-- The `insert` helper of `TxPoolApi::content` (txpool.rs lines 40-53),
with the plugged-in formatter (`from_recovered::<TxB>` composed with
`to_recovered_transaction`) as a parameter. -/
def contentInsert {τ : Type} (fmt : PoolTransaction → τ) (tx : PoolTransaction)
    (m : SenderMap τ) : SenderMap τ :=
  m.insertTx tx.sender tx.nonce (fmt tx)

/-- `TxPoolApi::content` (txpool.rs lines 38-66). -/
def TxPoolApi.content {τ : Type} (fmt : PoolTransaction → τ) (s : AllPoolTransactions) :
    TxpoolContent τ :=
  { pending := s.pending.foldl (fun acc tx => contentInsert fmt tx acc) SenderMap.empty
    queued := s.queued.foldl (fun acc tx => contentInsert fmt tx acc) SenderMap.empty }

/-- `TxpoolContentFrom`: content of one sender. -/
structure TxpoolContentFrom (τ : Type) where
  pending : SenderMap τ
  queued : SenderMap τ

/-- Modelled from the spec: `TxpoolContent::remove_from` is defined in
`reth_rpc_types`, outside the sampled sources.  Spec §4.2: contentFrom
is "equivalent to `content(snapshot)` restricted to the single sender
key `address` in each partition (absent if that sender has no entries
in a partition)". -/
def TxpoolContent.remove_from {τ : Type} (c : TxpoolContent τ) (a : Address) :
    TxpoolContentFrom τ :=
  { pending := fun k => if k = a then c.pending k else none
    queued := fun k => if k = a then c.queued k else none }

/-- `txpool_content_from` (txpool.rs lines 132-135):
`self.content().remove_from(&from)`. -/
def txpool_content_from {τ : Type} (fmt : PoolTransaction → τ) (s : AllPoolTransactions)
    (a : Address) : TxpoolContentFrom τ :=
  (TxPoolApi.content fmt s).remove_from a

/-- The key predicate of transaction `t`: same sender and same
decimal-nonce string. -/
def sameKey (t u : PoolTransaction) : Bool :=
  u.sender == t.sender && toString u.nonce == toString t.nonce

/-! Concrete sample inputs, used by the witness theorems. -/

/-- A sample deposit transaction. -/
def txDeposit : TransactionSigned :=
  { deposit := true, systemTransaction := false, sourceHash := some 5, mintValue := none
    envelope := [1, 2] }

/-- A sample non-deposit transaction. -/
def txPlain : TransactionSigned :=
  { deposit := false, systemTransaction := false, sourceHash := none, mintValue := none
    envelope := [3] }

/-- An `L1BlockInfo` whose derivations always succeed, the fee result
exceeding the u128 range. -/
def infoOk : L1BlockInfo :=
  { tag := 0
    l1_tx_data_fee := fun _ _ _ _ => Except.ok (2 ^ 128 + 5)
    l1_data_gas := fun _ _ _ => Except.ok 7 }

/-- An `L1BlockInfo` whose fee derivation fails. -/
def infoFeeFail : L1BlockInfo :=
  { tag := 1
    l1_tx_data_fee := fun _ _ _ _ => Except.error ()
    l1_data_gas := fun _ _ _ => Except.ok 7 }

/-- An `L1BlockInfo` whose gas derivation fails. -/
def infoGasFail : L1BlockInfo :=
  { tag := 2
    l1_tx_data_fee := fun _ _ _ _ => Except.ok 9
    l1_data_gas := fun _ _ _ => Except.error () }

/-- A sample pool transaction. -/
def poolTxA : PoolTransaction :=
  { sender := 10, nonce := 0, recipient := some 20, value := 100, gas_limit := 21000
    max_fee_per_gas := 7 }

/-- A second pool transaction sharing `poolTxA`'s sender and nonce but
with different contents (exercises last-write-wins). -/
def poolTxA2 : PoolTransaction :=
  { sender := 10, nonce := 0, recipient := some 21, value := 200, gas_limit := 30000
    max_fee_per_gas := 8 }

/-- A pool transaction of a different sender. -/
def poolTxB : PoolTransaction :=
  { sender := 11, nonce := 5, recipient := none, value := 1, gas_limit := 50000
    max_fee_per_gas := 9 }

/-- A sample snapshot with a duplicated (sender, nonce) key in pending. -/
def sampleSnapshot : AllPoolTransactions :=
  { pending := [poolTxA, poolTxA2], queued := [poolTxB] }

end Reth

namespace Reth

/-! Branch lemmas for `build_op_tx_meta`, shared by the claim theorems. -/

/-- Deposit branch of `build_op_tx_meta`. -/
theorem buildMeta_deposit_eq (chain_spec : ChainSpec) (tx : TransactionSigned)
    (info : L1BlockInfo) (block_timestamp : Nat) (hd : tx.deposit = true) :
    build_op_tx_meta chain_spec tx (some info) block_timestamp =
      Except.ok (OptimismTxMeta.new (some info) none none) := by
  simp [build_op_tx_meta, hd]

/-- Fee-derivation-failure branch of `build_op_tx_meta`. -/
theorem buildMeta_feeErr (chain_spec : ChainSpec) (tx : TransactionSigned)
    (info : L1BlockInfo) (block_timestamp : Nat) (e : Unit) (hd : tx.deposit = false)
    (he : info.l1_tx_data_fee chain_spec block_timestamp tx.envelope tx.deposit =
      Except.error e) :
    build_op_tx_meta chain_spec tx (some info) block_timestamp =
      Except.error OpEthApiError.L1BlockFeeError := by
  rw [hd] at he
  simp [build_op_tx_meta, hd, he]

/-- Gas-derivation-failure branch of `build_op_tx_meta`. -/
theorem buildMeta_gasErr (chain_spec : ChainSpec) (tx : TransactionSigned)
    (info : L1BlockInfo) (block_timestamp : Nat) (f : Nat) (e : Unit)
    (hd : tx.deposit = false)
    (hf : info.l1_tx_data_fee chain_spec block_timestamp tx.envelope tx.deposit =
      Except.ok f)
    (hg : info.l1_data_gas chain_spec block_timestamp tx.envelope = Except.error e) :
    build_op_tx_meta chain_spec tx (some info) block_timestamp =
      Except.error OpEthApiError.L1BlockGasError := by
  rw [hd] at hf
  simp [build_op_tx_meta, hd, hf, hg]

/-- Successful non-deposit branch of `build_op_tx_meta`. -/
theorem buildMeta_ok_eq (chain_spec : ChainSpec) (tx : TransactionSigned)
    (info : L1BlockInfo) (block_timestamp : Nat) (f g : Nat) (hd : tx.deposit = false)
    (hf : info.l1_tx_data_fee chain_spec block_timestamp tx.envelope tx.deposit =
      Except.ok f)
    (hg : info.l1_data_gas chain_spec block_timestamp tx.envelope = Except.ok g) :
    build_op_tx_meta chain_spec tx (some info) block_timestamp =
      Except.ok (OptimismTxMeta.new (some info) (some (saturatingToU128 f))
        (some (saturatingToU128 g))) := by
  rw [hd] at hf
  simp [build_op_tx_meta, hd, hf, hg]

/-- C2: with `l1_block_info = None` the meta is entirely empty, no
error, for every transaction, chain spec and timestamp. -/
theorem computeMeta_none_empty (chain_spec : ChainSpec) (tx : TransactionSigned)
    (block_timestamp : Nat) :
    build_op_tx_meta chain_spec tx none block_timestamp =
      Except.ok { l1_block_info := none, l1_fee := none, l1_data_gas := none } :=
  rfl

/-- C1: a deposit transaction with supplied L1 block info yields
`Ok { l1_block_info := some info, l1_fee := none, l1_data_gas := none }`,
for every choice of derivation functions (none is invoked). -/
theorem computeMeta_deposit (chain_spec : ChainSpec) (tx : TransactionSigned)
    (info : L1BlockInfo) (block_timestamp : Nat) (h : tx.deposit = true) :
    build_op_tx_meta chain_spec tx (some info) block_timestamp =
      Except.ok { l1_block_info := some info, l1_fee := none, l1_data_gas := none } := by
  simp [build_op_tx_meta, h, OptimismTxMeta.new]

/-- Witness for C1 at a concrete deposit transaction. -/
theorem computeMeta_deposit_witness :
    txDeposit.deposit = true ∧
      build_op_tx_meta 0 txDeposit (some infoOk) 0 =
        Except.ok { l1_block_info := some infoOk, l1_fee := none, l1_data_gas := none } :=
  ⟨rfl, computeMeta_deposit 0 txDeposit infoOk 0 rfl⟩

/-- C4: for a non-deposit transaction with L1 info supplied, a failing
fee derivation yields `L1BlockFeeError`, a failing gas derivation
(after a successful fee derivation) yields the distinct
`L1BlockGasError`, and an `Ok` result implies both derivations
succeeded — a derivation failure never produces an `Ok` meta. -/
theorem computeMeta_derivation_errors (chain_spec : ChainSpec) (tx : TransactionSigned)
    (info : L1BlockInfo) (block_timestamp : Nat) (hd : tx.deposit = false) :
    (∀ e, info.l1_tx_data_fee chain_spec block_timestamp tx.envelope tx.deposit =
        Except.error e →
      build_op_tx_meta chain_spec tx (some info) block_timestamp =
        Except.error OpEthApiError.L1BlockFeeError) ∧
    (∀ f e, info.l1_tx_data_fee chain_spec block_timestamp tx.envelope tx.deposit =
        Except.ok f →
      info.l1_data_gas chain_spec block_timestamp tx.envelope = Except.error e →
      build_op_tx_meta chain_spec tx (some info) block_timestamp =
        Except.error OpEthApiError.L1BlockGasError) ∧
    (∀ m, build_op_tx_meta chain_spec tx (some info) block_timestamp = Except.ok m →
      (∃ f, info.l1_tx_data_fee chain_spec block_timestamp tx.envelope tx.deposit =
        Except.ok f) ∧
      (∃ g, info.l1_data_gas chain_spec block_timestamp tx.envelope = Except.ok g)) := by
  refine ⟨fun e he => buildMeta_feeErr chain_spec tx info block_timestamp e hd he,
    fun f e hf hg => buildMeta_gasErr chain_spec tx info block_timestamp f e hd hf hg,
    fun m hm => ?_⟩
  rcases hfee : info.l1_tx_data_fee chain_spec block_timestamp tx.envelope tx.deposit with
    e | f
  · rw [buildMeta_feeErr chain_spec tx info block_timestamp e hd hfee] at hm
    exact absurd hm (by simp)
  · rcases hgas : info.l1_data_gas chain_spec block_timestamp tx.envelope with e | g
    · rw [buildMeta_gasErr chain_spec tx info block_timestamp f e hd hfee hgas] at hm
      exact absurd hm (by simp)
    · exact ⟨⟨f, rfl⟩, ⟨g, rfl⟩⟩


/-- Witness for C4 at concrete failing derivations. -/
theorem computeMeta_derivation_errors_witness :
    txPlain.deposit = false ∧
      build_op_tx_meta 0 txPlain (some infoFeeFail) 0 =
        Except.error OpEthApiError.L1BlockFeeError ∧
      build_op_tx_meta 0 txPlain (some infoGasFail) 0 =
        Except.error OpEthApiError.L1BlockGasError :=
  ⟨rfl, (computeMeta_derivation_errors 0 txPlain infoFeeFail 0 rfl).1 () rfl,
    (computeMeta_derivation_errors 0 txPlain infoGasFail 0 rfl).2.1 9 () rfl rfl⟩

/-- C5: when both derivations succeed for a non-deposit transaction,
the meta carries the results saturated into u128: each stored value is
`min result (2^128 - 1)`, hence at most `2^128 - 1`, equal to the exact
result whenever it fits, and clamped to `2^128 - 1` when it exceeds. -/
theorem computeMeta_success_saturates (chain_spec : ChainSpec) (tx : TransactionSigned)
    (info : L1BlockInfo) (block_timestamp : Nat) (f g : Nat) (hd : tx.deposit = false)
    (hf : info.l1_tx_data_fee chain_spec block_timestamp tx.envelope tx.deposit =
      Except.ok f)
    (hg : info.l1_data_gas chain_spec block_timestamp tx.envelope = Except.ok g) :
    build_op_tx_meta chain_spec tx (some info) block_timestamp =
      Except.ok { l1_block_info := some info, l1_fee := some (saturatingToU128 f),
                  l1_data_gas := some (saturatingToU128 g) } ∧
    saturatingToU128 f ≤ 2 ^ 128 - 1 ∧ saturatingToU128 g ≤ 2 ^ 128 - 1 ∧
    (f ≤ 2 ^ 128 - 1 → saturatingToU128 f = f) ∧
    (g ≤ 2 ^ 128 - 1 → saturatingToU128 g = g) ∧
    (2 ^ 128 - 1 < f → saturatingToU128 f = 2 ^ 128 - 1) ∧
    (2 ^ 128 - 1 < g → saturatingToU128 g = 2 ^ 128 - 1) := by
  exact ⟨buildMeta_ok_eq chain_spec tx info block_timestamp f g hd hf hg,
    Nat.min_le_right _ _, Nat.min_le_right _ _,
    fun h => Nat.min_eq_left h, fun h => Nat.min_eq_left h,
    fun h => Nat.min_eq_right h.le, fun h => Nat.min_eq_right h.le⟩

/-- Witness for C5: the fee result `2^128 + 5` is clamped to the u128
maximum, the gas result `7` is kept exact. -/
theorem computeMeta_success_saturates_witness :
    txPlain.deposit = false ∧
      build_op_tx_meta 0 txPlain (some infoOk) 0 =
        Except.ok { l1_block_info := some infoOk, l1_fee := some (saturatingToU128 (2 ^ 128 + 5)),
                    l1_data_gas := some (saturatingToU128 7) } ∧
      saturatingToU128 (2 ^ 128 + 5) = 2 ^ 128 - 1 ∧ saturatingToU128 7 = 7 :=
  ⟨rfl, (computeMeta_success_saturates 0 txPlain infoOk 0 (2 ^ 128 + 5) 7 rfl rfl rfl).1,
    (computeMeta_success_saturates 0 txPlain infoOk 0 (2 ^ 128 + 5) 7 rfl rfl rfl).2.2.2.2.2.1
      (by norm_num),
    (computeMeta_success_saturates 0 txPlain infoOk 0 (2 ^ 128 + 5) 7 rfl rfl rfl).2.2.2.2.1
      (by norm_num)⟩

/-- C10: every `Ok` meta carries `l1_fee` and `l1_data_gas` together:
one is present exactly when the other is. -/
theorem computeMeta_ok_fee_gas_parity (chain_spec : ChainSpec) (tx : TransactionSigned)
    (oinfo : Option L1BlockInfo) (block_timestamp : Nat) (m : OptimismTxMeta)
    (h : build_op_tx_meta chain_spec tx oinfo block_timestamp = Except.ok m) :
    (m.l1_fee.isSome ↔ m.l1_data_gas.isSome) := by
  rcases oinfo with _ | info
  · simp only [build_op_tx_meta, Except.ok.injEq] at h
    subst h; simp [OptimismTxMeta.default]
  · by_cases hd : tx.deposit
    · rw [buildMeta_deposit_eq chain_spec tx info block_timestamp hd,
        Except.ok.injEq] at h
      subst h; simp [OptimismTxMeta.new]
    · simp only [Bool.not_eq_true] at hd
      rcases hfee : info.l1_tx_data_fee chain_spec block_timestamp tx.envelope tx.deposit
        with e | f
      · rw [buildMeta_feeErr chain_spec tx info block_timestamp e hd hfee] at h
        exact absurd h (by simp)
      · rcases hgas : info.l1_data_gas chain_spec block_timestamp tx.envelope with e | g
        · rw [buildMeta_gasErr chain_spec tx info block_timestamp f e hd hfee hgas] at h
          exact absurd h (by simp)
        · rw [buildMeta_ok_eq chain_spec tx info block_timestamp f g hd hfee hgas,
            Except.ok.injEq] at h
          subst h; simp [OptimismTxMeta.new]

/-- Witness for C10 at a concrete `Ok` result. -/
theorem computeMeta_ok_fee_gas_parity_witness :
    (OptimismTxMeta.default.l1_fee.isSome ↔ OptimismTxMeta.default.l1_data_gas.isSome) :=
  computeMeta_ok_fee_gas_parity 0 txPlain none 0 OptimismTxMeta.default rfl

/-- C3: the rollup fill sets `is_system_tx` to `some b` exactly when the
transaction is a deposit; for a non-deposit transaction the field is
`none`, never `some false`. -/
theorem fill_is_system_tx_iff_deposit
    (ethFill : TransactionSignedEcRecovered → TransactionInfo → TransactionResponse)
    (tx : TransactionSignedEcRecovered) (tx_info : TransactionInfo) :
    ((∃ b, (OpTxBuilder.fill ethFill tx tx_info).other.is_system_tx = some b) ↔
      tx.signed_transaction.deposit = true) ∧
    (tx.signed_transaction.deposit = false →
      (OpTxBuilder.fill ethFill tx tx_info).other.is_system_tx = none) := by
  constructor
  · by_cases hd : tx.signed_transaction.deposit <;>
      simp [OpTxBuilder.fill, TransactionSignedEcRecovered.into_signed, thenSome, hd]
  · intro hd
    simp [OpTxBuilder.fill, TransactionSignedEcRecovered.into_signed, thenSome, hd]

/-- C9: the rollup fill returns exactly the base variant's response with
only the `other` extension slot replaced; every standard field is
identical to the base output's. -/
theorem fill_frame
    (ethFill : TransactionSignedEcRecovered → TransactionInfo → TransactionResponse)
    (tx : TransactionSignedEcRecovered) (tx_info : TransactionInfo) :
    (OpTxBuilder.fill ethFill tx tx_info).hash = (ethFill tx tx_info).hash ∧
    (OpTxBuilder.fill ethFill tx tx_info).signer = (ethFill tx tx_info).signer ∧
    (OpTxBuilder.fill ethFill tx tx_info).recipient = (ethFill tx tx_info).recipient ∧
    (OpTxBuilder.fill ethFill tx tx_info).value = (ethFill tx tx_info).value ∧
    (OpTxBuilder.fill ethFill tx tx_info).gas = (ethFill tx tx_info).gas ∧
    (OpTxBuilder.fill ethFill tx tx_info).nonce = (ethFill tx tx_info).nonce ∧
    (OpTxBuilder.fill ethFill tx tx_info).block_hash = (ethFill tx tx_info).block_hash ∧
    (OpTxBuilder.fill ethFill tx tx_info).block_number = (ethFill tx tx_info).block_number ∧
    (OpTxBuilder.fill ethFill tx tx_info).transaction_index =
      (ethFill tx tx_info).transaction_index ∧
    OpTxBuilder.fill ethFill tx tx_info =
      { ethFill tx tx_info with
        other :=
          { source_hash := tx.signed_transaction.sourceHash
            mint := tx.signed_transaction.mintValue
            is_system_tx := thenSome tx.signed_transaction.deposit
              tx.signed_transaction.systemTransaction } } :=
  ⟨rfl, rfl, rfl, rfl, rfl, rfl, rfl, rfl, rfl, rfl⟩

/-! Lemmas on the sender-map insertion step, shared by the txpool
claim theorems. -/

/-- Looking up after one insertion: the inserted key maps to the new
value, every other key is unchanged. -/
theorem SenderMap.lookup_insertTx {τ : Type} (m : SenderMap τ) (sender : Address)
    (nonce : Nat) (v : τ) (a : Address) (k : String) :
    (m.insertTx sender nonce v).lookup a k =
      if sender = a ∧ toString nonce = k then some v else m.lookup a k := by
  by_cases ha : sender = a
  · by_cases hk : toString nonce = k
    · rw [if_pos ⟨ha, hk⟩]
      simp [SenderMap.insertTx, SenderMap.lookup, ha, hk]
    · rw [if_neg (fun h => hk h.2)]
      cases hm : m a <;>
        simp [SenderMap.insertTx, SenderMap.lookup, ha, hm, hk, Ne.symm hk]
  · rw [if_neg (fun h => ha h.1)]
    have ha2 : ¬(a = sender) := fun h => ha h.symm
    simp [SenderMap.insertTx, SenderMap.lookup, ha2]

/-- One insertion leaves a sender key empty exactly when it is a
different sender whose key was already empty. -/
theorem SenderMap.insertTx_apply_none {τ : Type} (m : SenderMap τ) (sender : Address)
    (nonce : Nat) (v : τ) (a : Address) :
    (m.insertTx sender nonce v) a = none ↔ (sender ≠ a ∧ m a = none) := by
  by_cases ha : sender = a
  · simp [SenderMap.insertTx, ha]
  · have ha2 : ¬(a = sender) := fun h => ha h.symm
    simp [SenderMap.insertTx, ha, ha2]

/-- Folding the content insertion over a partition: a (sender, nonce)
lookup returns the formatted form of the LAST transaction of the
partition with that key, falling back to the initial map. -/
theorem lookup_foldl_contentInsert {τ : Type} (fmt : PoolTransaction → τ)
    (l : List PoolTransaction) (m : SenderMap τ) (a : Address) (k : String) :
    (l.foldl (fun acc tx => contentInsert fmt tx acc) m).lookup a k =
      (l.reverse.find? (fun u => u.sender == a && toString u.nonce == k)).elim
        (m.lookup a k) (fun u => some (fmt u)) := by
  induction l generalizing m with
  | nil => rfl
  | cons t ts ih =>
    simp only [List.foldl_cons, ih, List.reverse_cons, List.find?_append]
    cases hfind : ts.reverse.find? (fun u => u.sender == a && toString u.nonce == k) with
    | some u => simp
    | none =>
      simp only [Option.none_or]
      rcases hp : (t.sender == a && toString t.nonce == k) with _ | _
      · have hp' : ¬(t.sender = a ∧ toString t.nonce = k) := by
          simpa [Bool.and_eq_true] using (by simp [hp] : ¬(t.sender == a &&
            toString t.nonce == k) = true)
        simp only [contentInsert, SenderMap.lookup_insertTx, if_neg hp']
        simp [List.find?, hp]
      · have hp' : t.sender = a ∧ toString t.nonce = k := by
          simpa [Bool.and_eq_true] using hp
        simp only [contentInsert, SenderMap.lookup_insertTx, if_pos hp']
        simp [List.find?, hp]

/-- The inspect partition is the content partition with the summary as
formatter. -/
theorem lookup_inspectPartition (l : List PoolTransaction) (a : Address) (k : String) :
    (l.foldl (fun acc tx => inspectInsert tx acc) SenderMap.empty).lookup a k =
      (l.reverse.find? (fun u => u.sender == a && toString u.nonce == k)).map
        inspectSummary := by
  have h := lookup_foldl_contentInsert inspectSummary l SenderMap.empty a k
  rw [show (fun (acc : SenderMap TxpoolInspectSummary) tx => inspectInsert tx acc) =
      (fun acc tx => contentInsert inspectSummary tx acc) from rfl]
  rw [h]
  cases l.reverse.find? (fun u => u.sender == a && toString u.nonce == k) <;> rfl

/-- Membership makes the reversed `find?` on the transaction's own key
succeed. -/
theorem find?_sameKey_isSome (l : List PoolTransaction) (t : PoolTransaction)
    (h : t ∈ l) : (l.reverse.find? (sameKey t)).isSome = true := by
  rw [List.find?_isSome]
  exact ⟨t, by simpa using h, by simp [sameKey]⟩

/-- If `t` is the only transaction of its (sender, nonce) key, the
reversed `find?` returns `t` itself. -/
theorem find?_sameKey_unique (l : List PoolTransaction) (t : PoolTransaction)
    (h : t ∈ l) (huniq : ∀ u ∈ l, sameKey t u = true → u = t) :
    l.reverse.find? (sameKey t) = some t := by
  rcases hs : l.reverse.find? (sameKey t) with _ | u
  · have hsome := find?_sameKey_isSome l t h
    rw [hs] at hsome
    simp at hsome
  · have hu : u ∈ l := by
      have := List.mem_of_find?_eq_some hs
      simpa using this
    have hk := List.find?_some hs
    rw [huniq u hu hk]

/-- An empty fold result at a sender key means no transaction of that
sender occurs in the partition. -/
theorem foldl_contentInsert_apply_none {τ : Type} (fmt : PoolTransaction → τ)
    (l : List PoolTransaction) (m : SenderMap τ) (a : Address) :
    (l.foldl (fun acc tx => contentInsert fmt tx acc) m) a = none ↔
      (m a = none ∧ ∀ t ∈ l, t.sender ≠ a) := by
  induction l generalizing m with
  | nil => simp
  | cons t ts ih =>
    rw [List.foldl_cons, ih]
    have h1 : (contentInsert fmt t m) a = none ↔ (t.sender ≠ a ∧ m a = none) :=
      SenderMap.insertTx_apply_none m t.sender t.nonce (fmt t) a
    rw [h1]
    simp only [List.mem_cons]
    constructor
    · rintro ⟨⟨hne, hm⟩, hall⟩
      exact ⟨hm, fun u hu => hu.elim (fun h => by rw [h]; exact hne) (hall u)⟩
    · rintro ⟨hm, hall⟩
      exact ⟨⟨hall t (Or.inl rfl), hm⟩, fun u hu => hall u (Or.inr hu)⟩

/-- C6: `txpool_status` reports exactly the element counts of the two
sequences of the one snapshot it was given. -/
theorem txpool_status_counts (s : AllPoolTransactions) :
    (txpool_status s).pending = s.pending.length ∧
      (txpool_status s).queued = s.queued.length :=
  ⟨rfl, rfl⟩

/-- C7: `txpool_inspect` files each transaction under its sender and
decimal nonce string; the stored summary is the one of the LAST
transaction in snapshot order with that key (last-write-wins), and when
the key is unique it is exactly the transaction's own
recipient/value/gas-limit/max-fee-per-gas summary. -/
theorem txpool_inspect_lookup (s : AllPoolTransactions) (t : PoolTransaction) :
    (t ∈ s.pending →
      (txpool_inspect s).pending.lookup t.sender (toString t.nonce) =
        (s.pending.reverse.find? (sameKey t)).map inspectSummary ∧
      (s.pending.reverse.find? (sameKey t)).isSome = true ∧
      ((∀ u ∈ s.pending, sameKey t u = true → u = t) →
        (txpool_inspect s).pending.lookup t.sender (toString t.nonce) =
          some (inspectSummary t))) ∧
    (t ∈ s.queued →
      (txpool_inspect s).queued.lookup t.sender (toString t.nonce) =
        (s.queued.reverse.find? (sameKey t)).map inspectSummary ∧
      (s.queued.reverse.find? (sameKey t)).isSome = true ∧
      ((∀ u ∈ s.queued, sameKey t u = true → u = t) →
        (txpool_inspect s).queued.lookup t.sender (toString t.nonce) =
          some (inspectSummary t))) := by
  have hpend : (txpool_inspect s).pending.lookup t.sender (toString t.nonce) =
      (s.pending.reverse.find? (sameKey t)).map inspectSummary :=
    lookup_inspectPartition s.pending t.sender (toString t.nonce)
  have hque : (txpool_inspect s).queued.lookup t.sender (toString t.nonce) =
      (s.queued.reverse.find? (sameKey t)).map inspectSummary :=
    lookup_inspectPartition s.queued t.sender (toString t.nonce)
  refine ⟨fun ht => ⟨hpend, find?_sameKey_isSome _ _ ht, fun huniq => ?_⟩,
    fun ht => ⟨hque, find?_sameKey_isSome _ _ ht, fun huniq => ?_⟩⟩
  · rw [hpend, find?_sameKey_unique s.pending t ht huniq]
    rfl
  · rw [hque, find?_sameKey_unique s.queued t ht huniq]
    rfl

/-- Witness for C7 on a snapshot with a duplicated (sender, nonce) key:
the later transaction's summary wins. -/
theorem txpool_inspect_lookup_witness :
    poolTxA ∈ sampleSnapshot.pending ∧
      (txpool_inspect sampleSnapshot).pending.lookup poolTxA.sender
          (toString poolTxA.nonce) =
        some (inspectSummary poolTxA2) ∧
      poolTxB ∈ sampleSnapshot.queued ∧
      (txpool_inspect sampleSnapshot).queued.lookup poolTxB.sender
          (toString poolTxB.nonce) =
        some (inspectSummary poolTxB) := by
  have hp := (txpool_inspect_lookup sampleSnapshot poolTxA).1 (by decide)
  have hq := (txpool_inspect_lookup sampleSnapshot poolTxB).2 (by decide)
  refine ⟨by decide, ?_, by decide, ?_⟩
  · rw [hp.1]; rfl
  · exact hq.2.2 (by decide)

/-- C8: `txpool_content_from` is `content` with both partition maps
restricted to the single sender key, that key being empty exactly when
the sender has no transaction in the corresponding partition. -/
theorem txpool_content_from_restricts {τ : Type} (fmt : PoolTransaction → τ)
    (s : AllPoolTransactions) (a : Address) :
    (txpool_content_from fmt s a).pending =
      (fun k => if k = a then (TxPoolApi.content fmt s).pending k else none) ∧
    (txpool_content_from fmt s a).queued =
      (fun k => if k = a then (TxPoolApi.content fmt s).queued k else none) ∧
    ((txpool_content_from fmt s a).pending a = none ↔ ∀ t ∈ s.pending, t.sender ≠ a) ∧
    ((txpool_content_from fmt s a).queued a = none ↔ ∀ t ∈ s.queued, t.sender ≠ a) := by
  refine ⟨rfl, rfl, ?_, ?_⟩
  · show (if a = a then (TxPoolApi.content fmt s).pending a else none) = none ↔ _
    rw [if_pos rfl]
    show (s.pending.foldl (fun acc tx => contentInsert fmt tx acc) SenderMap.empty) a =
        none ↔ _
    rw [foldl_contentInsert_apply_none]
    simp [SenderMap.empty]
  · show (if a = a then (TxPoolApi.content fmt s).queued a else none) = none ↔ _
    rw [if_pos rfl]
    show (s.queued.foldl (fun acc tx => contentInsert fmt tx acc) SenderMap.empty) a =
        none ↔ _
    rw [foldl_contentInsert_apply_none]
    simp [SenderMap.empty]

end Reth
